import Mathlib

/-!
Verification development for the pod-provisioning server
(src/cmd/server/main.go): a shallow embedding of the durable-storage
layer, the /upload (Provision) handler, the /start (Launch) handler and
the shutdown protocol, together with theorems settling the specification
claims.

Modelling conventions:
* the filesystem is an association list from paths to byte contents;
  os.Stat-existence, os.Remove and creation/rename are explicit list
  operations;
* bytes are natural numbers, byte strings are lists;
* I/O failures (file creation, write, sync, rename, multipart reads) are
  injected through explicit fault records, since the Go error values are
  environment-determined;
* the hardware measurement capability is an oracle `measureOk`, matching
  the spec, which treats the trust root as an external collaborator
  behind an extend-register capability; the source's placeholder
  `measureIntoPCR` (which always returns nil) is the oracle that is
  constantly true;
* handler runs return, besides the HTTP status and the updated
  filesystem, a program-order trace of durable writes and register
  extensions, so ordering claims are statements about the trace.
-/

namespace PodProvisioning

/-- Byte strings, as in Go `[]byte`. -/
abbrev Bytes := List Nat

/-- Filesystem paths. -/
abbrev Path := String

/-- Durable storage: an association of paths to file contents.
Mirrors the flat /tmp layout the server uses. -/
abbrev FS := List (Path × Bytes)

/-- Path constant `podYamlPath = "/tmp/pod.yaml"` from the source. -/
def podYamlPath : Path := "/tmp/pod.yaml"

/-- Path constant `envFilePath = "/tmp/env"` from the source. -/
def envFilePath : Path := "/tmp/env"

/-- Content of the file at a path, if present (first binding wins, as a
filesystem has one file per path). -/
def getFile : FS → Path → Option Bytes
  | [], _ => none
  | (q, b) :: tl, p => if p = q then some b else getFile tl p

/-- Delete the file at a path, as `os.Remove`. -/
def removeFile : FS → Path → FS
  | [], _ => []
  | (q, b) :: tl, p => if q = p then removeFile tl p else (q, b) :: removeFile tl p

/-- Create or replace the file at a path with the given contents. -/
def setFile (fs : FS) (p : Path) (b : Bytes) : FS :=
  (p, b) :: removeFile fs p

/-- Source `fileExists`: `os.Stat` succeeds exactly when the path is
bound. -/
def fileExists (fs : FS) (p : Path) : Bool :=
  (getFile fs p).isSome

/-- Fault injection for one `atomicWriteFile` call: whether the
environment fails the temp-file creation, the data write, the fsync, or
the rename. -/
structure WriteFaults where
  failCreate : Bool
  failWrite : Bool
  failSync : Bool
  failRename : Bool

/-- The fault record of an invocation in which the environment raises no
I/O error. -/
def noWriteFaults : WriteFaults := ⟨false, false, false, false⟩

/-- Source `atomicWriteFile`: create `filename + ".tmp"` with O_EXCL
(so creation also fails when the temp file already exists), write the
data, sync, rename into place; on a write, sync or rename failure the
temp file is removed and the error is surfaced. Returns the Go error
result together with the updated filesystem. -/
def atomicWriteFile (fl : WriteFaults) (fs : FS) (filename : Path) (data : Bytes) :
    Except String Unit × FS :=
  let tempFile := filename ++ ".tmp"
  if fl.failCreate || fileExists fs tempFile then
    (Except.error "failed to create temp file", fs)
  else
    let fs1 := setFile fs tempFile []
    if fl.failWrite then
      (Except.error "failed to write temp file", removeFile fs1 tempFile)
    else
      let fs2 := setFile fs1 tempFile data
      if fl.failSync then
        (Except.error "failed to sync temp file", removeFile fs2 tempFile)
      else if fl.failRename then
        (Except.error "failed to rename temp file", removeFile fs2 tempFile)
      else
        (Except.ok (), setFile (removeFile fs2 tempFile) filename data)

/-- Observable provisioning events, in program order: a durable write
completing (the rename landing), and a register extension
(`measureIntoPCR`) succeeding. -/
inductive Ev where
  | wrote (p : Path)
  | measured (p : Path) (pcr : Nat)
deriving DecidableEq

/-- An /upload request: whether the method is POST, whether
`ParseMultipartForm` succeeds, and the multipart parts by name
(`r.FormFile(name)` is lookup in `parts`). -/
structure UploadRequest where
  isPost : Bool
  parseOk : Bool
  parts : List (String × Bytes)

/-- Fault injection for one /upload run: `io.ReadAll` failures on the
two parts, the fault records of the two `atomicWriteFile` calls, and
the measurement oracle (per register index). The source's
`measureIntoPCR` placeholder always succeeds; the spec keeps the trust
root pluggable, so success per register is an oracle here. -/
structure UploadFaults where
  podReadFail : Bool
  envReadFail : Bool
  podWrite : WriteFaults
  envWrite : WriteFaults
  measureOk : Nat → Bool

/-- Fault record of an /upload run in which no I/O fault occurs and
every measurement succeeds (the source's placeholder behaviour). -/
def noUploadFaults : UploadFaults :=
  ⟨false, false, noWriteFaults, noWriteFaults, fun _ => true⟩

/-- Result of one /upload run: HTTP status, filesystem afterwards, and
the program-order trace of writes and register extensions. -/
structure UploadResult where
  status : Nat
  fs : FS
  trace : List Ev
deriving DecidableEq

/-- Write-and-measure phase of the /upload handler, after the request
parts have been read and the conflict checks have passed: atomically
write pod.yaml, measure it into PCR 13, then, when env content is
non-empty, atomically write env and measure it into PCR 14.
Each failure aborts with InternalError (500) exactly where the source
returns. -/
def uploadWritePhase (fl : UploadFaults) (fs : FS) (podContent envContent : Bytes) :
    UploadResult :=
  match atomicWriteFile fl.podWrite fs podYamlPath podContent with
  | (Except.error _, fs1) => ⟨500, fs1, []⟩
  | (Except.ok _, fs1) =>
    if fl.measureOk 13 = false then ⟨500, fs1, [Ev.wrote podYamlPath]⟩
    else if 0 < envContent.length then
      match atomicWriteFile fl.envWrite fs1 envFilePath envContent with
      | (Except.error _, fs2) =>
        ⟨500, fs2, [Ev.wrote podYamlPath, Ev.measured podYamlPath 13]⟩
      | (Except.ok _, fs2) =>
        if fl.measureOk 14 = false then
          ⟨500, fs2, [Ev.wrote podYamlPath, Ev.measured podYamlPath 13,
            Ev.wrote envFilePath]⟩
        else
          ⟨201, fs2, [Ev.wrote podYamlPath, Ev.measured podYamlPath 13,
            Ev.wrote envFilePath, Ev.measured envFilePath 14]⟩
    else ⟨201, fs1, [Ev.wrote podYamlPath, Ev.measured podYamlPath 13]⟩

/-- The /upload handler, mirroring the source branch for branch:
reject non-POST (405); reject parse failure (400); require the part
named "pod.yaml" (400 when absent); Conflict (409) when pod.yaml is
already durable; read failure 500; when a part named "env" is present,
Conflict (409) when env is already durable and 500 on read failure;
then the write-and-measure phase. An absent env part behaves as empty
env content, as in the source (`envContent` stays nil). -/
def uploadHandler (fl : UploadFaults) (fs : FS) (req : UploadRequest) : UploadResult :=
  if req.isPost = false then ⟨405, fs, []⟩
  else if req.parseOk = false then ⟨400, fs, []⟩
  else
    match getFile req.parts "pod.yaml" with
    | none => ⟨400, fs, []⟩
    | some podContent =>
      if fileExists fs podYamlPath then ⟨409, fs, []⟩
      else if fl.podReadFail then ⟨500, fs, []⟩
      else
        match getFile req.parts "env" with
        | some envBytes =>
          if fileExists fs envFilePath then ⟨409, fs, []⟩
          else if fl.envReadFail then ⟨500, fs, []⟩
          else uploadWritePhase fl fs podContent envBytes
        | none => uploadWritePhase fl fs podContent []

/-- Environment of one /start run: whether `exec.LookPath("podman")`
succeeds, whether `cmd.Run()` returns an error, the rendering of that
error, and the captured standard output and standard error of the
engine. -/
structure Engine where
  podmanInstalled : Bool
  runFails : Bool
  failCause : String
  stdout : String
  stderr : String

/-- The external command the /start handler composes: with an env file,
a shell that sources the env file and runs podman on the pod spec;
without one, podman on the pod spec directly. -/
inductive EngineCmd where
  | shWithEnv (envPath podPath : Path)
  | plain (podPath : Path)
deriving DecidableEq

/-- Result of one /start run: HTTP status, response body, the command
the handler handed to `cmd.Run()` (none when `Run` was never reached),
and whether the handler fired the shutdown signal
(`close(shutdownCh)`). -/
structure StartResult where
  status : Nat
  body : String
  invoked : Option EngineCmd
  shutdownFired : Bool

/-- The body the source formats on engine failure:
`fmt.Sprintf` of the captured stdout, stderr and error value.
Right-nested concatenation, matching left-to-right formatting. -/
def engineFailBody (sout serr cause : String) : String :=
  "Container start failed:\nStdout: " ++
    (sout ++ ("\nStderr: " ++ (serr ++ ("\nError: " ++ cause))))

/-- The /start handler, mirroring the source: reject non-POST (405);
NotFound (404) when pod.yaml is absent from durable storage; compose
the command (sourcing the env file exactly when it exists); 500 when
podman is not installed; on `cmd.Run()` failure, 500 with the captured
output and cause and no shutdown; on success, 200 and the shutdown
signal is fired. -/
def startHandler (eng : Engine) (fs : FS) (isPost : Bool) : StartResult :=
  if isPost = false then ⟨405, "Method not allowed", none, false⟩
  else if fileExists fs podYamlPath = false then
    ⟨404, "pod.yaml not found", none, false⟩
  else
    let cmd := if fileExists fs envFilePath then
        EngineCmd.shWithEnv envFilePath podYamlPath
      else EngineCmd.plain podYamlPath
    if eng.podmanInstalled = false then
      ⟨500, "podman is not installed", none, false⟩
    else if eng.runFails then
      ⟨500, engineFailBody eng.stdout eng.stderr eng.failCause, some cmd, false⟩
    else ⟨200, "", some cmd, true⟩

/-- A string occurs inside another: the haystack splits around the
needle. -/
def strContains (hay needle : String) : Prop :=
  ∃ pre post, hay = pre ++ (needle ++ post)

/-! Process lifecycle. The source's shutdown protocol: a successful
/start handler closes `shutdownCh`; one background goroutine blocks on
the channel and then calls `server.Close()` and `wg.Done()`; `main`
returns from `ListenAndServe` once the listener is closed, waits on the
WaitGroup, and exits. We model it as a labelled transition system over
the relevant process state, with the listener accepting new requests
whenever it is not yet closed. -/

/-- Process lifecycle state: whether `shutdownCh` has been closed,
whether `server.Close()` has run, whether the shutdown goroutine has
finished (`wg.Done()`), and whether the process has exited. -/
structure LifeState where
  signaled : Bool
  closed : Bool
  taskDone : Bool
  exited : Bool
deriving DecidableEq

/-- Lifecycle actions: the listener accepts a new request; a successful
launch fires the shutdown signal; the shutdown goroutine observes the
signal, closes the listener and finishes; the process exits. -/
inductive LifeAct where
  | accept
  | signal
  | taskClose
  | exit
deriving DecidableEq

/-- Initial lifecycle state of the freshly started server. -/
def lifeInit : LifeState := ⟨false, false, false, false⟩

/-- One lifecycle step. Accepting needs the listener open and the
process alive; the signal is the closing of `shutdownCh` (closing an
already-closed channel is a Go panic, so it fires from the unsignaled
state); the goroutine runs once, only after the signal; exit needs the
listener closed (`ListenAndServe` returned) and the goroutine done
(`wg.Wait()`). -/
inductive LifeStep : LifeState → LifeAct → LifeState → Prop where
  | accept (s : LifeState) : s.closed = false → s.exited = false →
      LifeStep s LifeAct.accept s
  | signal (s : LifeState) : s.signaled = false →
      LifeStep s LifeAct.signal { s with signaled := true }
  | taskClose (s : LifeState) : s.signaled = true → s.taskDone = false →
      LifeStep s LifeAct.taskClose { s with closed := true, taskDone := true }
  | exit (s : LifeState) : s.closed = true → s.taskDone = true → s.exited = false →
      LifeStep s LifeAct.exit { s with exited := true }

/-- Reachability along a list of lifecycle actions. -/
inductive LifeTrace : LifeState → List LifeAct → LifeState → Prop where
  | nil (s : LifeState) : LifeTrace s [] s
  | cons {s s1 s2 : LifeState} {a : LifeAct} {tr : List LifeAct} :
      LifeStep s a s1 → LifeTrace s1 tr s2 → LifeTrace s (a :: tr) s2

/-- Number of shutdown signals in a trace. -/
def countSignal : List LifeAct → Nat
  | [] => 0
  | LifeAct.signal :: tr => countSignal tr + 1
  | _ :: tr => countSignal tr

/-! Concurrent provisioning. Two /upload handlers for the same artifact
kind (pod.yaml) run concurrently over the shared durable store. The
spec itself notes that the existence check and the write are the two
separate observable steps, so each handler is abstracted to those two
steps, exactly as the source orders them: step 0 is the
`fileExists(podYamlPath)` check, answering Conflict (409) when the file
is present; step 1 is `atomicWriteFile` + measurement + Created (201).
The write step is taken as atomic, which only helps the code. A
schedule is the interleaving: which handler moves next. -/

/-- Joint state of two concurrent same-kind provisioning attempts:
the durable pod.yaml content and, per handler, a program counter and
the response it has produced, if any. -/
structure ConcState where
  pod : Option Bytes
  pc1 : Nat
  pc2 : Nat
  res1 : Option Nat
  res2 : Option Nat
deriving DecidableEq

/-- One step of a single upload handler holding body `b`: at pc 0 the
existence check (Conflict when present), at pc 1 the atomic write plus
measurement plus Created response. Returns the new store content,
program counter and response. -/
def handlerStep (b : Bytes) (pod : Option Bytes) (pc : Nat) (res : Option Nat) :
    Option Bytes × Nat × Option Nat :=
  match pc with
  | 0 => if pod.isSome then (pod, 2, some 409) else (pod, 1, res)
  | 1 => (some b, 2, some 201)
  | _ => (pod, pc, res)

/-- Scheduler step: `true` advances handler 1 (body `b1`), `false`
advances handler 2 (body `b2`). -/
def schedStep (b1 b2 : Bytes) (s : ConcState) (who : Bool) : ConcState :=
  if who then
    let r := handlerStep b1 s.pod s.pc1 s.res1
    { s with pod := r.1, pc1 := r.2.1, res1 := r.2.2 }
  else
    let r := handlerStep b2 s.pod s.pc2 s.res2
    { s with pod := r.1, pc2 := r.2.1, res2 := r.2.2 }

/-- Run a whole schedule. -/
def runSched (b1 b2 : Bytes) (s : ConcState) : List Bool → ConcState
  | [] => s
  | w :: ws => runSched b1 b2 (schedStep b1 b2 s w) ws

/-- Both handlers at their existence check, empty store, no responses. -/
def concInit : ConcState := ⟨none, 0, 0, none, none⟩

/-! Concrete inputs used by witnesses and counterexamples. -/

/-- A well-formed upload request carrying only the pod.yaml part. -/
def reqPodOnly : UploadRequest := ⟨true, true, [("pod.yaml", [1, 2, 3])]⟩

/-- A well-formed upload request carrying pod.yaml and a non-empty env
part. -/
def reqPodEnv : UploadRequest :=
  ⟨true, true, [("pod.yaml", [1, 2, 3]), ("env", [7, 8])]⟩

/-- A well-formed upload request carrying pod.yaml and an empty env
part. -/
def reqPodEmptyEnv : UploadRequest :=
  ⟨true, true, [("pod.yaml", [1, 2, 3]), ("env", [])]⟩

/-- An upload request using the part names the spec text advertises
("podSpec", "envBundle") instead of the ones the source reads. -/
def reqSpecNamed : UploadRequest :=
  ⟨true, true, [("podSpec", [1]), ("envBundle", [2])]⟩

/-- A POST whose multipart form fails to parse. -/
def reqParseFail : UploadRequest := ⟨true, false, []⟩

/-- Fault record failing only the measurement into register 13. -/
def flMeasure13Fails : UploadFaults :=
  ⟨false, false, noWriteFaults, noWriteFaults, fun r => decide (r ≠ 13)⟩

/-- Fault record failing only the measurement into register 14. -/
def flMeasure14Fails : UploadFaults :=
  ⟨false, false, noWriteFaults, noWriteFaults, fun r => decide (r ≠ 14)⟩

/-- Storage already holding a pod.yaml artifact. -/
def fsWithPod : FS := [(podYamlPath, [9])]

/-- Storage already holding pod.yaml and env artifacts. -/
def fsWithPodEnv : FS := [(podYamlPath, [9]), (envFilePath, [5])]

/-- Storage already holding only the env artifact. -/
def fsWithEnvOnly : FS := [(envFilePath, [5])]

/-- An engine environment with podman installed and a run that
succeeds. -/
def engGood : Engine := ⟨true, false, "", "ok", ""⟩

/-- An engine environment with podman installed and a failing run. -/
def engFailing : Engine := ⟨true, true, "exit status 125", "partial out", "oops"⟩

/-- An engine environment without podman on the host. -/
def engMissing : Engine := ⟨false, false, "", "", ""⟩

/-! Helper lemmas about the storage model. -/

theorem getFile_removeFile (fs : FS) (p q : Path) :
    getFile (removeFile fs q) p = if p = q then none else getFile fs p := by
  induction fs with
  | nil => simp [removeFile, getFile]
  | cons hd tl ih =>
    obtain ⟨k, b⟩ := hd
    by_cases hkq : k = q <;> by_cases hpq : p = q <;> by_cases hpk : p = k <;>
      simp_all [removeFile, getFile]

theorem getFile_setFile (fs : FS) (p q : Path) (b : Bytes) :
    getFile (setFile fs q b) p = if p = q then some b else getFile fs p := by
  by_cases hpq : p = q <;> simp [setFile, getFile, hpq, getFile_removeFile]

theorem getFile_eq_none_of_not_exists {fs : FS} {p : Path} (h : fileExists fs p = false) :
    getFile fs p = none := by
  unfold fileExists at h
  rcases hx : getFile fs p with _ | b
  · rfl
  · rw [hx] at h
    cases h

/-- A path never equals its own temp-file variant. -/
theorem self_ne_tmp (s : Path) : s ≠ s ++ ".tmp" := by
  intro h
  have hl := congrArg String.length h
  simp [String.length_append] at hl
  exact absurd hl (by decide)

theorem pod_ne_env : podYamlPath ≠ envFilePath := by decide

theorem env_ne_pod : envFilePath ≠ podYamlPath := by decide

theorem envTmp_ne_pod : envFilePath ++ ".tmp" ≠ podYamlPath := by decide

theorem pod_ne_envTmp : podYamlPath ≠ envFilePath ++ ".tmp" := by decide

theorem podTmp_ne_env : podYamlPath ++ ".tmp" ≠ envFilePath := by decide

theorem env_ne_podTmp : envFilePath ≠ podYamlPath ++ ".tmp" := by decide

/-! Helper lemmas about the lifecycle transition system. -/

theorem countSignal_eq_zero {s s1 : LifeState} {tr : List LifeAct}
    (h : LifeTrace s tr s1) (hs : s.signaled = true) : countSignal tr = 0 := by
  induction h with
  | nil => rfl
  | cons hstep htr ih =>
    cases hstep with
    | accept h1 h2 => simpa [countSignal] using ih hs
    | signal h1 => rw [hs] at h1; cases h1
    | taskClose h1 h2 => simpa [countSignal] using ih hs
    | exit h1 h2 h3 => simpa [countSignal] using ih hs

theorem countSignal_le_one {s s1 : LifeState} {tr : List LifeAct}
    (h : LifeTrace s tr s1) (hs : s.signaled = false) : countSignal tr ≤ 1 := by
  induction h with
  | nil => simp [countSignal]
  | cons hstep htr ih =>
    cases hstep with
    | accept h1 h2 => simpa [countSignal] using ih hs
    | signal h1 =>
      have h0 := countSignal_eq_zero htr rfl
      simp [countSignal, h0]
    | taskClose h1 h2 => rw [hs] at h1; cases h1
    | exit h1 h2 h3 => simpa [countSignal] using ih hs

theorem accept_notMem_of_closed {s s1 : LifeState} {tr : List LifeAct}
    (h : LifeTrace s tr s1) (hc : s.closed = true) : LifeAct.accept ∉ tr := by
  induction h with
  | nil => simp
  | cons hstep htr ih =>
    cases hstep with
    | accept h1 h2 => rw [hc] at h1; cases h1
    | signal h1 =>
      intro hmem
      rcases List.mem_cons.mp hmem with he | he
      · cases he
      · exact ih hc he
    | taskClose h1 h2 =>
      intro hmem
      rcases List.mem_cons.mp hmem with he | he
      · cases he
      · exact ih rfl he
    | exit h1 h2 h3 =>
      intro hmem
      rcases List.mem_cons.mp hmem with he | he
      · cases he
      · exact ih hc he

theorem lifeTrace_append {s s2 : LifeState} {t1 t2 : List LifeAct}
    (h : LifeTrace s (t1 ++ t2) s2) :
    ∃ m, LifeTrace s t1 m ∧ LifeTrace m t2 s2 := by
  induction t1 generalizing s with
  | nil => exact ⟨s, LifeTrace.nil s, h⟩
  | cons a t1 ih =>
    cases h with
    | cons hstep htr =>
      obtain ⟨m, hm1, hm2⟩ := ih htr
      exact ⟨m, LifeTrace.cons hstep hm1, hm2⟩

theorem exited_imp_taskDone {s s1 : LifeState} {tr : List LifeAct}
    (h : LifeTrace s tr s1) (hinv : s.exited = true → s.taskDone = true) :
    s1.exited = true → s1.taskDone = true := by
  induction h with
  | nil => exact hinv
  | cons hstep htr ih =>
    apply ih
    cases hstep with
    | accept h1 h2 => exact hinv
    | signal h1 => exact hinv
    | taskClose h1 h2 => intro _; rfl
    | exit h1 h2 h3 => intro _; exact h2

theorem taskClose_mem_of_taskDone {s s1 : LifeState} {tr : List LifeAct}
    (h : LifeTrace s tr s1) (h0 : s.taskDone = false) (h1 : s1.taskDone = true) :
    LifeAct.taskClose ∈ tr := by
  induction h with
  | nil => rw [h0] at h1; cases h1
  | cons hstep htr ih =>
    cases hstep with
    | accept ha hb => exact List.mem_cons_of_mem _ (ih h0 h1)
    | signal ha => exact List.mem_cons_of_mem _ (ih h0 h1)
    | taskClose ha hb => exact List.mem_cons_self _ _
    | exit ha hb hc => rw [h0] at hb; cases hb

/-- Demonstration run of the lifecycle: the launch handler fires the
signal, the shutdown goroutine closes the listener, the process exits. -/
theorem lifeTrace_demo :
    LifeTrace lifeInit [LifeAct.signal, LifeAct.taskClose, LifeAct.exit]
      ⟨true, true, true, true⟩ :=
  LifeTrace.cons (LifeStep.signal lifeInit rfl)
    (LifeTrace.cons (LifeStep.taskClose _ rfl rfl)
      (LifeTrace.cons (LifeStep.exit _ rfl rfl rfl) (LifeTrace.nil _)))

/-! Helper lemmas about the /upload handler. -/

theorem writePhase_trace_of_created (fl : UploadFaults) (fs : FS) (pc ec : Bytes)
    (hok : (uploadWritePhase fl fs pc ec).status = 201) :
    (uploadWritePhase fl fs pc ec).trace =
        [Ev.wrote podYamlPath, Ev.measured podYamlPath 13] ∨
      (uploadWritePhase fl fs pc ec).trace =
        [Ev.wrote podYamlPath, Ev.measured podYamlPath 13,
         Ev.wrote envFilePath, Ev.measured envFilePath 14] := by
  rcases hpod : atomicWriteFile fl.podWrite fs podYamlPath pc with ⟨e1, fs1⟩
  cases e1 with
  | error msg => simp [uploadWritePhase, hpod] at hok
  | ok u =>
    cases u
    cases hm13 : fl.measureOk 13 with
    | false => simp [uploadWritePhase, hpod, hm13] at hok
    | true =>
      by_cases hlen : 0 < ec.length
      · rcases henv : atomicWriteFile fl.envWrite fs1 envFilePath ec with ⟨e2, fs2⟩
        cases e2 with
        | error m2 => simp [uploadWritePhase, hpod, hm13, hlen, henv] at hok
        | ok u2 =>
          cases u2
          cases hm14 : fl.measureOk 14 with
          | false => simp [uploadWritePhase, hpod, hm13, hlen, henv, hm14] at hok
          | true =>
            right
            simp [uploadWritePhase, hpod, hm13, hlen, henv, hm14]
      · left
        simp [uploadWritePhase, hpod, hm13, hlen]

theorem uploadHandler_created (fl : UploadFaults) (fs : FS) (req : UploadRequest)
    (hok : (uploadHandler fl fs req).status = 201) :
    ∃ pc ec, uploadHandler fl fs req = uploadWritePhase fl fs pc ec := by
  by_cases h1 : req.isPost = false
  · simp [uploadHandler, h1] at hok
  · by_cases h2 : req.parseOk = false
    · simp [uploadHandler, h1, h2] at hok
    · rcases h3 : getFile req.parts "pod.yaml" with _ | pc
      · simp [uploadHandler, h1, h2, h3] at hok
      · by_cases h4 : fileExists fs podYamlPath
        · simp [uploadHandler, h1, h2, h3, h4] at hok
        · by_cases h5 : fl.podReadFail
          · simp [uploadHandler, h1, h2, h3, h4, h5] at hok
          · rcases h6 : getFile req.parts "env" with _ | eb
            · exact ⟨pc, [], by simp [uploadHandler, h1, h2, h3, h4, h5, h6]⟩
            · by_cases h7 : fileExists fs envFilePath
              · simp [uploadHandler, h1, h2, h3, h4, h5, h6, h7] at hok
              · by_cases h8 : fl.envReadFail
                · simp [uploadHandler, h1, h2, h3, h4, h5, h6, h7, h8] at hok
                · exact ⟨pc, eb, by simp [uploadHandler, h1, h2, h3, h4, h5, h6, h7, h8]⟩

/-- A successful `atomicWriteFile` call leaves the data at the final
durable location. -/
theorem atomicWriteFile_ok_written (fl : WriteFaults) (fs : FS) (fn : Path)
    (data : Bytes) (h : ∃ u, (atomicWriteFile fl fs fn data).1 = Except.ok u) :
    getFile (atomicWriteFile fl fs fn data).2 fn = some data := by
  obtain ⟨u, h⟩ := h
  cases h1 : (fl.failCreate || fileExists fs (fn ++ ".tmp")) <;>
    cases h2 : fl.failWrite <;> cases h3 : fl.failSync <;>
      cases h4 : fl.failRename <;> simp_all [atomicWriteFile, getFile_setFile]

/-- Every /upload run either stops before any write (empty trace) or is
the write-and-measure phase on some part contents. -/
theorem uploadHandler_cases (fl : UploadFaults) (fs : FS) (req : UploadRequest) :
    (uploadHandler fl fs req).trace = [] ∨
    ∃ pc ec, uploadHandler fl fs req = uploadWritePhase fl fs pc ec := by
  by_cases h1 : req.isPost = false
  · left; simp [uploadHandler, h1]
  · by_cases h2 : req.parseOk = false
    · left; simp [uploadHandler, h1, h2]
    · rcases h3 : getFile req.parts "pod.yaml" with _ | pc
      · left; simp [uploadHandler, h1, h2, h3]
      · by_cases h4 : fileExists fs podYamlPath
        · left; simp [uploadHandler, h1, h2, h3, h4]
        · by_cases h5 : fl.podReadFail
          · left; simp [uploadHandler, h1, h2, h3, h4, h5]
          · rcases h6 : getFile req.parts "env" with _ | eb
            · right
              exact ⟨pc, [], by simp [uploadHandler, h1, h2, h3, h4, h5, h6]⟩
            · by_cases h7 : fileExists fs envFilePath
              · left; simp [uploadHandler, h1, h2, h3, h4, h5, h6, h7]
              · by_cases h8 : fl.envReadFail
                · left; simp [uploadHandler, h1, h2, h3, h4, h5, h6, h7, h8]
                · right
                  exact ⟨pc, eb,
                    by simp [uploadHandler, h1, h2, h3, h4, h5, h6, h7, h8]⟩

/-- Write-and-measure phase under a failing register 13: when the Spec
write landed (its event is in the trace), the phase answers 500, the
Spec artifact is present on storage, and no register-13 extension
happened. -/
theorem writePhase_measure13_failure (fl : UploadFaults) (fs : FS) (pc ec : Bytes)
    (hm : fl.measureOk 13 = false)
    (hw : Ev.wrote podYamlPath ∈ (uploadWritePhase fl fs pc ec).trace) :
    (uploadWritePhase fl fs pc ec).status = 500 ∧
    fileExists (uploadWritePhase fl fs pc ec).fs podYamlPath = true ∧
    Ev.measured podYamlPath 13 ∉ (uploadWritePhase fl fs pc ec).trace := by
  rcases hpod : atomicWriteFile fl.podWrite fs podYamlPath pc with ⟨e1, fs1⟩
  cases e1 with
  | error msg => simp [uploadWritePhase, hpod] at hw
  | ok u =>
    cases u
    have hg : getFile fs1 podYamlPath = some pc := by
      have := atomicWriteFile_ok_written fl.podWrite fs podYamlPath pc
        ⟨(), by rw [hpod]⟩
      rwa [hpod] at this
    refine ⟨?_, ?_, ?_⟩ <;> simp [uploadWritePhase, hpod, hm, fileExists, hg]

/-- Write-and-measure phase under a failing register 14: when the
EnvBundle write landed (its event is in the trace), the phase answers
500, the EnvBundle artifact is present on storage, and no register-14
extension happened. -/
theorem writePhase_measure14_failure (fl : UploadFaults) (fs : FS) (pc ec : Bytes)
    (hm : fl.measureOk 14 = false)
    (hw : Ev.wrote envFilePath ∈ (uploadWritePhase fl fs pc ec).trace) :
    (uploadWritePhase fl fs pc ec).status = 500 ∧
    fileExists (uploadWritePhase fl fs pc ec).fs envFilePath = true ∧
    Ev.measured envFilePath 14 ∉ (uploadWritePhase fl fs pc ec).trace := by
  rcases hpod : atomicWriteFile fl.podWrite fs podYamlPath pc with ⟨e1, fs1⟩
  cases e1 with
  | error msg => simp [uploadWritePhase, hpod] at hw
  | ok u =>
    cases u
    cases hm13 : fl.measureOk 13 with
    | false => simp [uploadWritePhase, hpod, hm13, env_ne_pod] at hw
    | true =>
      by_cases hlen : 0 < ec.length
      · rcases henv : atomicWriteFile fl.envWrite fs1 envFilePath ec with ⟨e2, fs2⟩
        cases e2 with
        | error m2 =>
          simp [uploadWritePhase, hpod, hm13, hlen, henv, env_ne_pod] at hw
        | ok u2 =>
          cases u2
          have hg : getFile fs2 envFilePath = some ec := by
            have := atomicWriteFile_ok_written fl.envWrite fs1 envFilePath ec
              ⟨(), by rw [henv]⟩
            rwa [henv] at this
          refine ⟨?_, ?_, ?_⟩ <;>
            simp [uploadWritePhase, hpod, hm13, hlen, henv, hm, fileExists, hg,
              env_ne_pod]
      · simp [uploadWritePhase, hpod, hm13, hlen, env_ne_pod] at hw

/-! The claims. -/

/-- Claim C1: write-once semantics. For either artifact kind, when the
artifact is already present on durable storage, a Provision attempt for
that kind answers Conflict (409) and leaves durable storage entirely
unchanged (so the first artifact's bytes are untouched, never merged or
replaced). The first conjunct is the Spec kind; the second is the
EnvBundle kind, reached when the request carries an env part and the
Spec conflict did not fire first. -/
theorem upload_write_once (fl : UploadFaults) (fs : FS) (req : UploadRequest) (b : Bytes)
    (hpost : req.isPost = true) (hparse : req.parseOk = true)
    (hpod : getFile req.parts "pod.yaml" = some b) :
    (fileExists fs podYamlPath = true →
      (uploadHandler fl fs req).status = 409 ∧ (uploadHandler fl fs req).fs = fs) ∧
    (∀ e : Bytes, fileExists fs podYamlPath = false → fl.podReadFail = false →
      getFile req.parts "env" = some e → fileExists fs envFilePath = true →
      (uploadHandler fl fs req).status = 409 ∧ (uploadHandler fl fs req).fs = fs) := by
  constructor
  · intro hx
    simp [uploadHandler, hpost, hparse, hpod, hx]
  · intro e h1 h2 h3 h4
    simp [uploadHandler, hpost, hparse, hpod, h1, h2, h3, h4]

/-- Witness for C1: a second upload of pod.yaml against a store already
holding one is answered 409 with the store unchanged, and an upload
carrying an env part against a store already holding the env artifact
(but no pod.yaml) is likewise answered 409 with the store unchanged. -/
theorem upload_write_once_witness :
    ((uploadHandler noUploadFaults fsWithPod reqPodOnly).status = 409 ∧
      (uploadHandler noUploadFaults fsWithPod reqPodOnly).fs = fsWithPod) ∧
    ((uploadHandler noUploadFaults fsWithEnvOnly reqPodEnv).status = 409 ∧
      (uploadHandler noUploadFaults fsWithEnvOnly reqPodEnv).fs = fsWithEnvOnly) :=
  ⟨(upload_write_once noUploadFaults fsWithPod reqPodOnly [1, 2, 3] rfl rfl
      (by decide)).1 (by decide),
    (upload_write_once noUploadFaults fsWithEnvOnly reqPodEnv [1, 2, 3] rfl rfl
      (by decide)).2 [7, 8] (by decide) rfl (by decide) (by decide)⟩

/-- Claim C2: measure-once, write-before-measure ordering. In every
provisioning run that answers Created (201), the program-order trace of
durable-write completions and register extensions is exactly one of two
sequences: pod.yaml written then measured into register 13; or
additionally env written then measured into register 14 afterwards. In
both, each persisted artifact has exactly one extension, into its fixed
register, strictly after its write, and the Spec extension precedes the
EnvBundle extension whenever both occur. -/
theorem upload_measure_once_ordered (fl : UploadFaults) (fs : FS) (req : UploadRequest)
    (hok : (uploadHandler fl fs req).status = 201) :
    (uploadHandler fl fs req).trace =
        [Ev.wrote podYamlPath, Ev.measured podYamlPath 13] ∨
      (uploadHandler fl fs req).trace =
        [Ev.wrote podYamlPath, Ev.measured podYamlPath 13,
         Ev.wrote envFilePath, Ev.measured envFilePath 14] := by
  obtain ⟨pc, ec, heq⟩ := uploadHandler_created fl fs req hok
  rw [heq] at hok ⊢
  exact writePhase_trace_of_created fl fs pc ec hok

/-- Witness for C2: a fault-free upload of pod.yaml plus a non-empty
env bundle into empty storage produces one of the two admissible
traces. -/
theorem upload_measure_once_ordered_witness :
    (uploadHandler noUploadFaults [] reqPodEnv).trace =
        [Ev.wrote podYamlPath, Ev.measured podYamlPath 13] ∨
      (uploadHandler noUploadFaults [] reqPodEnv).trace =
        [Ev.wrote podYamlPath, Ev.measured podYamlPath 13,
         Ev.wrote envFilePath, Ev.measured envFilePath 14] :=
  upload_measure_once_ordered noUploadFaults [] reqPodEnv (by decide)

/-- Counterexample to claim C3 as stated: a Provision run in which the
durable write succeeds (the trace carries the write completion) and the
register-13 extension fails is answered 500, yet pod.yaml is present on
durable storage with no extension event — a present-but-unmeasured
artifact is observable after the call, so the second half of the claim
fails on the code (the source never removes the artifact on measurement
failure). -/
theorem measure_failure_cex :
    (uploadHandler flMeasure13Fails [] reqPodOnly).status = 500 ∧
    fileExists (uploadHandler flMeasure13Fails [] reqPodOnly).fs podYamlPath = true ∧
    (uploadHandler flMeasure13Fails [] reqPodOnly).trace = [Ev.wrote podYamlPath] := by
  decide

/-- Claim C3 (amended): for every Provision call — any request shape,
storage state and fault environment — in which an artifact's durable
write succeeds (its write event is in the run's trace) but the
subsequent extension of that artifact's register fails, the call is not
reported as successful (it answers InternalError 500); however the
artifact remains present on durable storage with no extension event for
its register. The first conjunct is the Spec artifact with register 13,
the second the EnvBundle artifact with register 14. -/
theorem measure_failure_not_reported_success (fl : UploadFaults) (fs : FS)
    (req : UploadRequest) :
    (fl.measureOk 13 = false →
      Ev.wrote podYamlPath ∈ (uploadHandler fl fs req).trace →
      (uploadHandler fl fs req).status = 500 ∧
      fileExists (uploadHandler fl fs req).fs podYamlPath = true ∧
      Ev.measured podYamlPath 13 ∉ (uploadHandler fl fs req).trace) ∧
    (fl.measureOk 14 = false →
      Ev.wrote envFilePath ∈ (uploadHandler fl fs req).trace →
      (uploadHandler fl fs req).status = 500 ∧
      fileExists (uploadHandler fl fs req).fs envFilePath = true ∧
      Ev.measured envFilePath 14 ∉ (uploadHandler fl fs req).trace) := by
  rcases uploadHandler_cases fl fs req with hnil | ⟨pc, ec, heq⟩
  · constructor
    · intro hm hw
      rw [hnil] at hw
      exact absurd hw (List.not_mem_nil _)
    · intro hm hw
      rw [hnil] at hw
      exact absurd hw (List.not_mem_nil _)
  · rw [heq]
    exact ⟨writePhase_measure13_failure fl fs pc ec,
      writePhase_measure14_failure fl fs pc ec⟩

/-- Witness for the amended C3: a Spec-only upload with register 13
failing leaves pod.yaml present and unmeasured behind a 500, and an
upload carrying a non-empty env bundle with register 14 failing leaves
the env artifact present and unmeasured behind a 500. -/
theorem measure_failure_not_reported_success_witness :
    ((uploadHandler flMeasure13Fails [] reqPodOnly).status = 500 ∧
      fileExists (uploadHandler flMeasure13Fails [] reqPodOnly).fs podYamlPath =
        true ∧
      Ev.measured podYamlPath 13 ∉
        (uploadHandler flMeasure13Fails [] reqPodOnly).trace) ∧
    ((uploadHandler flMeasure14Fails [] reqPodEnv).status = 500 ∧
      fileExists (uploadHandler flMeasure14Fails [] reqPodEnv).fs envFilePath =
        true ∧
      Ev.measured envFilePath 14 ∉
        (uploadHandler flMeasure14Fails [] reqPodEnv).trace) :=
  ⟨(measure_failure_not_reported_success flMeasure13Fails [] reqPodOnly).1
      (by decide) (by decide),
    (measure_failure_not_reported_success flMeasure14Fails [] reqPodEnv).2
      (by decide) (by decide)⟩

/-- Claim C4: atomic-write error policy. For any invocation of
`atomicWriteFile` whose temp-file creation succeeds and in which the
environment fails the data write, the sync, or the rename, the call
returns an error, the temporary file is absent afterwards, and the
content at the final durable location is exactly what it was before the
call (no partial or complete artifact becomes visible there). -/
theorem atomicWrite_failure_policy (fl : WriteFaults) (fs : FS) (fn : Path) (data : Bytes)
    (hc : fl.failCreate = false) (htmp : fileExists fs (fn ++ ".tmp") = false)
    (hf : fl.failWrite = true ∨ fl.failSync = true ∨ fl.failRename = true) :
    (∃ msg, (atomicWriteFile fl fs fn data).1 = Except.error msg) ∧
    getFile (atomicWriteFile fl fs fn data).2 (fn ++ ".tmp") = none ∧
    getFile (atomicWriteFile fl fs fn data).2 fn = getFile fs fn := by
  have hne := self_ne_tmp fn
  by_cases hw : fl.failWrite <;> by_cases hs : fl.failSync <;>
    by_cases hr : fl.failRename <;>
      simp_all [atomicWriteFile, getFile_removeFile, getFile_setFile]

/-- Witness for C4: a sync failure while writing pod.yaml into empty
storage surfaces an error, removes the temp file and leaves the durable
location empty. -/
theorem atomicWrite_failure_policy_witness :
    (∃ msg, (atomicWriteFile ⟨false, false, true, false⟩ [] podYamlPath [1]).1 =
      Except.error msg) ∧
    getFile (atomicWriteFile ⟨false, false, true, false⟩ [] podYamlPath [1]).2
      (podYamlPath ++ ".tmp") = none ∧
    getFile (atomicWriteFile ⟨false, false, true, false⟩ [] podYamlPath [1]).2
      podYamlPath = getFile [] podYamlPath :=
  atomicWrite_failure_policy ⟨false, false, true, false⟩ [] podYamlPath [1]
    rfl rfl (Or.inr (Or.inl rfl))

/-- Counterexample to claim C5 as stated: a POST request whose
multipart form parses and which carries parts named "podSpec" and
"envBundle" — present per the claimed part names — is nevertheless
answered BadRequest (400), because the handler reads the part named
"pod.yaml", not "podSpec". -/
theorem upload_part_names_cex :
    getFile reqSpecNamed.parts "podSpec" = some [1] ∧
    reqSpecNamed.isPost = true ∧ reqSpecNamed.parseOk = true ∧
    (uploadHandler noUploadFaults [] reqSpecNamed).status = 400 := by
  decide

/-- Claim C5 (amended): the upload handler reads the required Spec
artifact from the multipart part named "pod.yaml" and the optional
EnvBundle artifact from the part named "env", and answers BadRequest
(400) when parsing fails or the pod.yaml part is absent. The last two
conjuncts show the named parts are what lands on storage: on a
fault-free run over empty storage the pod.yaml part's bytes become the
Spec artifact, and the env part's bytes (when non-empty) become the
EnvBundle artifact. -/
theorem upload_part_names (fl : UploadFaults) (fs : FS) (req : UploadRequest) :
    (req.isPost = true → req.parseOk = false →
      (uploadHandler fl fs req).status = 400) ∧
    (req.isPost = true → req.parseOk = true →
      getFile req.parts "pod.yaml" = none →
      (uploadHandler fl fs req).status = 400) ∧
    (∀ b : Bytes, req.isPost = true → req.parseOk = true →
      getFile req.parts "pod.yaml" = some b →
      getFile req.parts "env" = none →
      (uploadHandler noUploadFaults [] req).status = 201 ∧
      getFile (uploadHandler noUploadFaults [] req).fs podYamlPath = some b) ∧
    (∀ b e : Bytes, req.isPost = true → req.parseOk = true →
      getFile req.parts "pod.yaml" = some b →
      getFile req.parts "env" = some e → 0 < e.length →
      (uploadHandler noUploadFaults [] req).status = 201 ∧
      getFile (uploadHandler noUploadFaults [] req).fs podYamlPath = some b ∧
      getFile (uploadHandler noUploadFaults [] req).fs envFilePath = some e) := by
  refine ⟨?_, ?_, ?_, ?_⟩
  · intro h1 h2
    simp [uploadHandler, h1, h2]
  · intro h1 h2 h3
    simp [uploadHandler, h1, h2, h3]
  · intro b h1 h2 h3 h4
    simp [uploadHandler, h1, h2, h3, h4, uploadWritePhase, noUploadFaults,
      atomicWriteFile, noWriteFaults, fileExists, getFile, getFile_setFile,
      getFile_removeFile]
  · intro b e h1 h2 h3 h4 h5
    simp [uploadHandler, h1, h2, h3, h4, h5, uploadWritePhase, noUploadFaults,
      atomicWriteFile, noWriteFaults, fileExists, getFile, getFile_setFile,
      getFile_removeFile, env_ne_pod, env_ne_podTmp, envTmp_ne_pod, pod_ne_env,
      pod_ne_envTmp, podTmp_ne_env]

/-- Witness for the amended C5: a parse failure is answered 400, a
request without a pod.yaml part is answered 400, and a fault-free
upload carrying pod.yaml and env parts lands both named parts on
storage with status 201. -/
theorem upload_part_names_witness :
    (uploadHandler noUploadFaults [] reqParseFail).status = 400 ∧
    (uploadHandler noUploadFaults [] reqSpecNamed).status = 400 ∧
    ((uploadHandler noUploadFaults [] reqPodOnly).status = 201 ∧
      getFile (uploadHandler noUploadFaults [] reqPodOnly).fs podYamlPath =
        some [1, 2, 3]) ∧
    ((uploadHandler noUploadFaults [] reqPodEnv).status = 201 ∧
      getFile (uploadHandler noUploadFaults [] reqPodEnv).fs podYamlPath =
        some [1, 2, 3] ∧
      getFile (uploadHandler noUploadFaults [] reqPodEnv).fs envFilePath =
        some [7, 8]) :=
  ⟨(upload_part_names noUploadFaults [] reqParseFail).1 rfl rfl,
    (upload_part_names noUploadFaults [] reqSpecNamed).2.1 rfl rfl (by decide),
    (upload_part_names noUploadFaults [] reqPodOnly).2.2.1 [1, 2, 3] rfl rfl
      (by decide) (by decide),
    (upload_part_names noUploadFaults [] reqPodEnv).2.2.2 [1, 2, 3] [7, 8] rfl rfl
      (by decide) (by decide) (by decide)⟩

/-- Claim C6: launch precondition. For every durable-storage state and
engine environment, the Launch handler answers NotFound (404) exactly
when the Spec artifact is absent from storage — independently of
whether the EnvBundle is present — and a Spec alone satisfies the
precondition: with pod.yaml present, env absent and the engine
installed, the engine is invoked, without an environment file. -/
theorem launch_missing_spec (eng : Engine) (fs : FS) :
    ((startHandler eng fs true).status = 404 ↔ fileExists fs podYamlPath = false) ∧
    (fileExists fs podYamlPath = true → fileExists fs envFilePath = false →
      eng.podmanInstalled = true →
      (startHandler eng fs true).invoked = some (EngineCmd.plain podYamlPath)) := by
  constructor
  · cases hp : fileExists fs podYamlPath with
    | false => simp [startHandler, hp]
    | true =>
      cases hi : eng.podmanInstalled with
      | false => simp [startHandler, hp, hi]
      | true => cases hr : eng.runFails <;> simp [startHandler, hp, hi, hr]
  · intro h1 h2 h3
    cases hr : eng.runFails <;> simp [startHandler, h1, h2, h3, hr]

/-- Witness for C6: on empty storage Launch is 404; with only a Spec
present it is not 404 and the engine runs on the Spec without an env
file. -/
theorem launch_missing_spec_witness :
    ((startHandler engGood [] true).status = 404 ↔
      fileExists ([] : FS) podYamlPath = false) ∧
    ((startHandler engGood fsWithPod true).status = 404 ↔
      fileExists fsWithPod podYamlPath = false) ∧
    (startHandler engGood fsWithPod true).invoked =
      some (EngineCmd.plain podYamlPath) :=
  ⟨(launch_missing_spec engGood []).1,
    (launch_missing_spec engGood fsWithPod).1,
    (launch_missing_spec engGood fsWithPod).2 (by decide) (by decide) rfl⟩

/-- Claim C7: engine-failure surfacing and survivability. With the Spec
present: when podman is missing from the host, the answer is
InternalError (500) with the engine-not-installed description and no
shutdown; when the engine run fails, the answer is InternalError whose
body contains the captured standard output, standard error and the
failure cause, again with no shutdown; and the service keeps serving —
a later Launch against the same storage with a working engine answers
OK (200). -/
theorem engine_failure_surfaced (eng : Engine) (fs : FS)
    (hpod : fileExists fs podYamlPath = true) :
    (eng.podmanInstalled = false →
      (startHandler eng fs true).status = 500 ∧
      (startHandler eng fs true).body = "podman is not installed" ∧
      (startHandler eng fs true).shutdownFired = false) ∧
    (eng.podmanInstalled = true → eng.runFails = true →
      (startHandler eng fs true).status = 500 ∧
      strContains (startHandler eng fs true).body eng.stdout ∧
      strContains (startHandler eng fs true).body eng.stderr ∧
      strContains (startHandler eng fs true).body eng.failCause ∧
      (startHandler eng fs true).shutdownFired = false) ∧
    (∀ retry : Engine, retry.podmanInstalled = true → retry.runFails = false →
      (startHandler retry fs true).status = 200) := by
  refine ⟨?_, ?_, ?_⟩
  · intro hi
    simp [startHandler, hpod, hi]
  · intro hi hr
    refine ⟨by simp [startHandler, hpod, hi, hr], ?_, ?_, ?_,
      by simp [startHandler, hpod, hi, hr]⟩
    · refine ⟨"Container start failed:\nStdout: ",
        "\nStderr: " ++ (eng.stderr ++ ("\nError: " ++ eng.failCause)), ?_⟩
      simp [startHandler, hpod, hi, hr, engineFailBody]
    · refine ⟨"Container start failed:\nStdout: " ++ (eng.stdout ++ "\nStderr: "),
        "\nError: " ++ eng.failCause, ?_⟩
      simp [startHandler, hpod, hi, hr, engineFailBody, String.append_assoc]
    · refine ⟨"Container start failed:\nStdout: " ++
        (eng.stdout ++ ("\nStderr: " ++ (eng.stderr ++ "\nError: "))), "", ?_⟩
      simp [startHandler, hpod, hi, hr, engineFailBody, String.append_assoc,
        String.append_empty]
  · intro retry hi hr
    simp [startHandler, hpod, hi, hr]

/-- Witness for C7: with the Spec present, a missing podman yields the
500 not-installed answer without shutdown, a failing run yields a 500
whose body carries the captured output and cause without shutdown, and
a retry with a working engine yields 200. -/
theorem engine_failure_surfaced_witness :
    ((startHandler engMissing fsWithPod true).status = 500 ∧
      (startHandler engMissing fsWithPod true).body = "podman is not installed" ∧
      (startHandler engMissing fsWithPod true).shutdownFired = false) ∧
    ((startHandler engFailing fsWithPod true).status = 500 ∧
      strContains (startHandler engFailing fsWithPod true).body engFailing.stdout ∧
      strContains (startHandler engFailing fsWithPod true).body engFailing.stderr ∧
      strContains (startHandler engFailing fsWithPod true).body engFailing.failCause ∧
      (startHandler engFailing fsWithPod true).shutdownFired = false) ∧
    (startHandler engGood fsWithPod true).status = 200 :=
  ⟨(engine_failure_surfaced engMissing fsWithPod (by decide)).1 rfl,
    (engine_failure_surfaced engFailing fsWithPod (by decide)).2.1 rfl rfl,
    (engine_failure_surfaced engFailing fsWithPod (by decide)).2.2 engGood rfl rfl⟩

/-- Counterexample to claim C8 as stated: the claim says no new request
is accepted after the shutdown signal, but the signal
(`close(shutdownCh)`) and the listener close (`server.Close()` in the
background goroutine) are two separate steps, and the lifecycle
faithfully reaches a run in which the listener accepts a request
strictly after the signal has fired and before the goroutine closes the
listener. -/
theorem accept_after_signal_cex :
    LifeTrace lifeInit [LifeAct.signal, LifeAct.accept, LifeAct.taskClose]
      ⟨true, true, true, false⟩ :=
  LifeTrace.cons (LifeStep.signal lifeInit rfl)
    (LifeTrace.cons (LifeStep.accept _ rfl rfl)
      (LifeTrace.cons (LifeStep.taskClose _ rfl rfl) (LifeTrace.nil _)))

/-- Claim C8 (amended): success triggers shutdown. A Launch call whose
engine run completes successfully answers OK (200) and fires the
one-way shutdown signal; in every run of the process lifecycle from
start, the signal fires at most once, no new request is accepted after
the background task has closed the listening service (though one may
still be accepted in the window between the signal and the close), and
the process exits only after the background shutdown task has
completed. -/
theorem shutdown_protocol :
    (∀ (eng : Engine) (fs : FS),
      fileExists fs podYamlPath = true → eng.podmanInstalled = true →
      eng.runFails = false →
      (startHandler eng fs true).status = 200 ∧
      (startHandler eng fs true).shutdownFired = true) ∧
    (∀ (tr : List LifeAct) (s : LifeState),
      LifeTrace lifeInit tr s → countSignal tr ≤ 1) ∧
    (∀ (t1 t2 : List LifeAct) (s : LifeState),
      LifeTrace lifeInit (t1 ++ LifeAct.taskClose :: t2) s →
      LifeAct.accept ∉ t2) ∧
    (∀ (tr : List LifeAct) (s : LifeState),
      LifeTrace lifeInit tr s → s.exited = true → LifeAct.taskClose ∈ tr) := by
  refine ⟨?_, ?_, ?_, ?_⟩
  · intro eng fs h1 h2 h3
    simp [startHandler, h1, h2, h3]
  · intro tr s h
    exact countSignal_le_one h rfl
  · intro t1 t2 s h
    obtain ⟨m, hm1, hm2⟩ := lifeTrace_append h
    cases hm2 with
    | cons hstep htr =>
      cases hstep with
      | taskClose ha hb => exact accept_notMem_of_closed htr rfl
  · intro tr s h hx
    have hd : s.taskDone = true :=
      exited_imp_taskDone h (fun hc => by rw [show lifeInit.exited = false from rfl] at hc; cases hc) hx
    exact taskClose_mem_of_taskDone h rfl hd

/-- Witness for the amended C8: a successful launch against a Spec-only
store answers 200 and fires the signal, and the demonstration lifecycle
run signal-close-exit satisfies the at-most-one-signal bound, accepts
nothing after the close, and contains the task step required for the
exit it performs. -/
theorem shutdown_protocol_witness :
    ((startHandler engGood fsWithPod true).status = 200 ∧
      (startHandler engGood fsWithPod true).shutdownFired = true) ∧
    countSignal [LifeAct.signal, LifeAct.taskClose, LifeAct.exit] ≤ 1 ∧
    LifeAct.accept ∉ ([LifeAct.exit] : List LifeAct) ∧
    LifeAct.taskClose ∈ [LifeAct.signal, LifeAct.taskClose, LifeAct.exit] :=
  ⟨shutdown_protocol.1 engGood fsWithPod (by decide) rfl rfl,
    shutdown_protocol.2.1 _ _ lifeTrace_demo,
    shutdown_protocol.2.2.1 [LifeAct.signal] [LifeAct.exit] _ lifeTrace_demo,
    shutdown_protocol.2.2.2 _ _ lifeTrace_demo rfl⟩

/-- Claim C9 is refuted on the code: the source guards the existence
check and the subsequent write with no mutual exclusion (its only
synchronisation primitive is the shutdown WaitGroup), so the
interleaving in which both concurrent same-kind provisioning attempts
pass the existence check before either writes lets both answer Created
(201), with the second rename silently replacing the first artifact's
bytes. The schedule true-false-true-false is exactly that interleaving:
both existence checks, then both write steps. -/
theorem concurrent_provision_both_succeed :
    (runSched [65] [66] concInit [true, false, true, false]).res1 = some 201 ∧
    (runSched [65] [66] concInit [true, false, true, false]).res2 = some 201 ∧
    (runSched [65] [66] concInit [true, false, true, false]).pod = some [66] := by
  decide

/-- Claim C10: an upload carrying a zero-byte env part alongside a
valid Spec, against storage holding neither artifact, is answered
Created (201), yet the EnvBundle artifact is never written (the env
location is exactly as before, hence absent) and register 14 is never
extended — the trace holds only the Spec write and its register-13
extension. -/
theorem empty_env_dropped (fl : UploadFaults) (fs : FS) (req : UploadRequest)
    (b : Bytes)
    (hpost : req.isPost = true) (hparse : req.parseOk = true)
    (hpod : getFile req.parts "pod.yaml" = some b)
    (henv : getFile req.parts "env" = some [])
    (hpa : fileExists fs podYamlPath = false)
    (hea : fileExists fs envFilePath = false)
    (hrd : fl.podReadFail = false) (herd : fl.envReadFail = false)
    (hpw : fl.podWrite = noWriteFaults)
    (htmp : fileExists fs (podYamlPath ++ ".tmp") = false)
    (hm : fl.measureOk 13 = true) :
    (uploadHandler fl fs req).status = 201 ∧
    getFile (uploadHandler fl fs req).fs envFilePath = none ∧
    (uploadHandler fl fs req).trace =
      [Ev.wrote podYamlPath, Ev.measured podYamlPath 13] := by
  have hen : getFile fs envFilePath = none := getFile_eq_none_of_not_exists hea
  simp [uploadHandler, hpost, hparse, hpod, henv, hpa, hea, hrd, herd,
    uploadWritePhase, hpw, atomicWriteFile, noWriteFaults, htmp, hm,
    getFile_setFile, getFile_removeFile, env_ne_pod, env_ne_podTmp, hen]

/-- Witness for C10: a concrete upload with pod.yaml bytes and an empty
env part into empty storage. -/
theorem empty_env_dropped_witness :
    (uploadHandler noUploadFaults [] reqPodEmptyEnv).status = 201 ∧
    getFile (uploadHandler noUploadFaults [] reqPodEmptyEnv).fs envFilePath = none ∧
    (uploadHandler noUploadFaults [] reqPodEmptyEnv).trace =
      [Ev.wrote podYamlPath, Ev.measured podYamlPath 13] :=
  empty_env_dropped noUploadFaults [] reqPodEmptyEnv [1, 2, 3] rfl rfl
    (by decide) (by decide) rfl rfl rfl rfl rfl rfl rfl

end PodProvisioning
